import Mathlib

/-!
Verification of the material-estimation engine of `silicon_calculator.py`.

The engine `calculate_project_materials` takes a table of window entries
(columns `Width`, `Height`, `Quantity`), joint/can configuration for the
exterior and interior side, a screw spacing and a waste factor, and returns
the augmented table together with the total perimeter, per-side silicone
lengths and can counts, screw count and rubber length.

We embed the table cells as either numeric values (rationals, standing for
the Python floats) or non-numeric values that `pd.to_numeric` rejects; the
arithmetic core works on coerced numeric entries.
-/

namespace SiliconCalc

/-- One raw table cell: a numeric value, or a non-numeric value that
`pd.to_numeric` fails on. -/
inductive Cell where
  | num (q : ℚ)
  | nonNumeric
deriving DecidableEq, Repr

/-- `pd.to_numeric` on a single cell: succeeds exactly on numeric cells. -/
def to_numeric : Cell → Except String ℚ
  | .num q => .ok q
  | .nonNumeric => .error "Unable to parse string"

/-- One raw row of the caller's table (before numeric coercion). -/
structure RawEntry where
  width : Cell
  height : Cell
  quantity : Cell
deriving DecidableEq, Repr

/-- One coerced row: `Width`, `Height`, `Quantity` as numbers. -/
structure Entry where
  width : ℚ
  height : ℚ
  quantity : ℚ
deriving DecidableEq, Repr

/-- The configuration arguments of `calculate_project_materials`. -/
structure Config where
  ext_width_mm : ℚ
  ext_depth_mm : ℚ
  ext_can_vol_ml : ℚ
  int_width_mm : ℚ
  int_depth_mm : ℚ
  int_can_vol_ml : ℚ
  screw_spacing_cm : ℚ
  waste_factor_percent : ℚ
deriving DecidableEq, Repr

/-- One row of the returned DataFrame: the original three columns plus the
derived `Perimeter_Single` and `Perimeter_Total_Type` columns. -/
structure RowOut where
  width : ℚ
  height : ℚ
  quantity : ℚ
  perimeter_single : ℚ
  perimeter_total_type : ℚ
deriving DecidableEq, Repr

/-- The result tuple of `calculate_project_materials` (with the DataFrame). -/
structure Result where
  df : List RowOut
  total_project_perimeter : ℚ
  total_ext_length : ℚ
  total_int_length : ℚ
  ext_cans : ℤ
  int_cans : ℤ
  total_screws : ℤ
  total_rubber_length : ℚ
deriving DecidableEq, Repr

/-- Column-wise numeric coercion, `pd.to_numeric(df[col])`: fails on the
first non-numeric cell of the column. -/
def coerceColumn (f : RawEntry → Cell) : List RawEntry → Except String (List ℚ)
  | [] => .ok []
  | r :: rs =>
    match to_numeric (f r), coerceColumn f rs with
    | .ok q, .ok qs => .ok (q :: qs)
    | .error e, _ => .error e
    | .ok _, .error e => .error e

/-- Reassemble coerced columns into rows. -/
def mkEntries : List ℚ → List ℚ → List ℚ → List Entry
  | w :: ws, h :: hs, q :: qs => ⟨w, h, q⟩ :: mkEntries ws hs qs
  | _, _, _ => []

/-- Lines 30-34 of the source: coerce the `Width`, `Height` and `Quantity`
columns in that order, failing if any cell is non-numeric. -/
def coerceAll (rs : List RawEntry) : Except String (List Entry) := do
  let ws ← coerceColumn RawEntry.width rs
  let hs ← coerceColumn RawEntry.height rs
  let qs ← coerceColumn RawEntry.quantity rs
  pure (mkEntries ws hs qs)

/-- The arithmetic core of `calculate_project_materials` (source lines
36-88), on coerced entries. -/
def calculate_core (entries : List Entry) (cfg : Config) : Result :=
  -- 1./2. per-row derived columns
  let df : List RowOut := entries.map fun e =>
    let perimeter_single := (e.width + e.height) * 2
    ⟨e.width, e.height, e.quantity, perimeter_single, perimeter_single * e.quantity⟩
  -- 3. sum for the whole project
  let total_project_perimeter := (df.map RowOut.perimeter_total_type).sum
  -- 4. waste multiplier
  let waste_multiplier := 1 + cfg.waste_factor_percent / 100
  -- exterior
  let total_ext_length := total_project_perimeter * waste_multiplier
  let ext_vol_per_meter_ml := cfg.ext_width_mm * cfg.ext_depth_mm
  let ext_cans : ℤ :=
    if ext_vol_per_meter_ml > 0 then
      ⌈total_ext_length / (cfg.ext_can_vol_ml / ext_vol_per_meter_ml)⌉
    else 0
  -- interior
  let total_int_length := total_project_perimeter * waste_multiplier
  let int_vol_per_meter_ml := cfg.int_width_mm * cfg.int_depth_mm
  let int_cans : ℤ :=
    if int_vol_per_meter_ml > 0 then
      ⌈total_int_length / (cfg.int_can_vol_ml / int_vol_per_meter_ml)⌉
    else 0
  -- screws
  let total_screws : ℤ :=
    if cfg.screw_spacing_cm > 0 then
      ⌈total_project_perimeter / (cfg.screw_spacing_cm / 100)⌉
    else 0
  -- rubber
  let total_rubber_length := total_project_perimeter * 3 * waste_multiplier
  ⟨df, total_project_perimeter, total_ext_length, total_int_length,
    ext_cans, int_cans, total_screws, total_rubber_length⟩

/-- `calculate_project_materials`: numeric coercion of the copied table,
then the arithmetic core. -/
def calculate_project_materials (rs : List RawEntry) (cfg : Config) :
    Except String Result :=
  (coerceAll rs).map fun es => calculate_core es cfg

/-- The call as seen from the caller: the function works on `df.copy()`
(source line 31), so the caller's table is passed through unchanged
alongside the computed result. -/
def calculate_with_caller (caller : List RawEntry) (cfg : Config) :
    List RawEntry × Except String Result :=
  (caller, calculate_project_materials caller cfg)

/-- A raw row whose cells are all numeric. -/
def numEntry (w h q : ℚ) : RawEntry := ⟨.num w, .num h, .num q⟩

end SiliconCalc

namespace SiliconCalc

/-- Evaluate an integer ceiling of a rational at a concrete value. -/
theorem ceil_rat_eq {q : ℚ} {z : ℤ} (h1 : (z : ℚ) - 1 < q) (h2 : q ≤ z) :
    ⌈q⌉ = z :=
  Int.ceil_eq_iff.mpr ⟨h1, h2⟩

end SiliconCalc

namespace SiliconCalc

/-- Rewriting the per-row term `(w + h) * 2 * q` of the source into the
spec's `2 * (w + h) * q` does not change the sum. -/
theorem sum_ptt (entries : List Entry) :
    (entries.map fun e => (e.width + e.height) * 2 * e.quantity).sum
      = (entries.map fun e => 2 * (e.width + e.height) * e.quantity).sum := by
  induction entries with
  | nil => rfl
  | cons e es ih =>
    simp only [List.map_cons, List.sum_cons, ih]
    ring_nf

/-- The total perimeter is the sum of the per-row `Perimeter_Total_Type`. -/
theorem total_perimeter_def (entries : List Entry) (cfg : Config) :
    (calculate_core entries cfg).total_project_perimeter
      = (entries.map fun e => (e.width + e.height) * 2 * e.quantity).sum := by
  simp only [calculate_core, List.map_map]
  rfl

/-- The total perimeter does not depend on the configuration. -/
theorem total_perimeter_config_free (entries : List Entry) (cfg cfg' : Config) :
    (calculate_core entries cfg).total_project_perimeter
      = (calculate_core entries cfg').total_project_perimeter := by
  rw [total_perimeter_def, total_perimeter_def]

end SiliconCalc

namespace SiliconCalc

/-- C3: for every list of entries, `totalPerimeterMeters` equals the sum
over all entries of `2*(width+height)*quantity`, and this total is
unchanged under any permutation of the entry list. -/
theorem C3_perimeter_additive_perm_invariant (entries entries' : List Entry)
    (cfg cfg' : Config) (hperm : entries.Perm entries') :
    (calculate_core entries cfg).total_project_perimeter
        = (entries.map fun e => 2 * (e.width + e.height) * e.quantity).sum
      ∧ (calculate_core entries cfg).total_project_perimeter
        = (calculate_core entries' cfg').total_project_perimeter := by
  constructor
  · rw [total_perimeter_def, sum_ptt]
  · rw [total_perimeter_def, total_perimeter_def]
    exact (hperm.map fun e => (e.width + e.height) * 2 * e.quantity).sum_eq

/-- Witness for C3 at a concrete two-entry list and its swap. -/
theorem C3_witness :
    (calculate_core [⟨1, 2, 3⟩, ⟨4, 5, 6⟩] ⟨10, 10, 100, 5, 5, 50, 40, 0⟩).total_project_perimeter
        = ([(⟨1, 2, 3⟩ : Entry), ⟨4, 5, 6⟩].map
            fun e => 2 * (e.width + e.height) * e.quantity).sum
      ∧ (calculate_core [⟨1, 2, 3⟩, ⟨4, 5, 6⟩] ⟨10, 10, 100, 5, 5, 50, 40, 0⟩).total_project_perimeter
        = (calculate_core [⟨4, 5, 6⟩, ⟨1, 2, 3⟩] ⟨10, 10, 100, 5, 5, 50, 40, 0⟩).total_project_perimeter :=
  C3_perimeter_additive_perm_invariant [⟨1, 2, 3⟩, ⟨4, 5, 6⟩] [⟨4, 5, 6⟩, ⟨1, 2, 3⟩]
    ⟨10, 10, 100, 5, 5, 50, 40, 0⟩ ⟨10, 10, 100, 5, 5, 50, 40, 0⟩
    (List.Perm.swap (⟨4, 5, 6⟩ : Entry) (⟨1, 2, 3⟩ : Entry) [])

/-- C7: for every input, `totalRubberLengthMeters` equals
`totalPerimeterMeters * 3 * (1 + wasteFactorPercent/100)`, with the literal
constant `3` (the formula takes nothing from the configuration but the
waste factor). -/
theorem C7_rubber_formula (entries : List Entry) (cfg : Config) :
    (calculate_core entries cfg).total_rubber_length
      = (calculate_core entries cfg).total_project_perimeter * 3
          * (1 + cfg.waste_factor_percent / 100) := by
  simp only [calculate_core]

/-- C9: scenario D — one window `1×1×1`, exterior joint 10×10 mm with a
100 ml can, interior joint 5×5 mm with a 50 ml can, 50 % waste, 20 cm screw
spacing: exterior length 6 m, 6 exterior cans, 3 interior cans, 20 screws,
18 m of rubber. -/
theorem C9_scenario_d :
    (calculate_core [⟨1, 1, 1⟩] ⟨10, 10, 100, 5, 5, 50, 20, 50⟩).total_ext_length = 6
      ∧ (calculate_core [⟨1, 1, 1⟩] ⟨10, 10, 100, 5, 5, 50, 20, 50⟩).ext_cans = 6
      ∧ (calculate_core [⟨1, 1, 1⟩] ⟨10, 10, 100, 5, 5, 50, 20, 50⟩).int_cans = 3
      ∧ (calculate_core [⟨1, 1, 1⟩] ⟨10, 10, 100, 5, 5, 50, 20, 50⟩).total_screws = 20
      ∧ (calculate_core [⟨1, 1, 1⟩] ⟨10, 10, 100, 5, 5, 50, 20, 50⟩).total_rubber_length = 18 := by
  refine ⟨?_, ?_, ?_, ?_, ?_⟩ <;>
    · simp only [calculate_core, List.map, List.sum_cons, List.sum_nil]
      norm_num

/-- C10: the call leaves the caller's table unchanged (the engine works on
`df.copy()`), and the returned per-entry table carries the original
`Width`, `Height`, `Quantity` values together with the two derived columns
`Perimeter_Single = (w+h)*2` and `Perimeter_Total_Type = (w+h)*2*q`. -/
theorem C10_frame_and_output_table (caller : List RawEntry) (entries : List Entry)
    (cfg : Config) :
    (calculate_with_caller caller cfg).1 = caller
      ∧ (calculate_core entries cfg).df
        = (entries.map fun e =>
            ⟨e.width, e.height, e.quantity,
              (e.width + e.height) * 2, (e.width + e.height) * 2 * e.quantity⟩)
      ∧ ((calculate_core entries cfg).df.map fun r => (r.width, r.height, r.quantity))
        = (entries.map fun e => (e.width, e.height, e.quantity)) := by
  refine ⟨rfl, rfl, ?_⟩
  simp only [calculate_core, List.map_map]
  rfl

/-- C1: in dual-material mode, each side's length is the raw perimeter
times the waste multiplier (no ×2), and whenever the side's joint
cross-section is positive the side's can count is
`ceil(length / (canVolumeMl / (jointWidthMm * jointDepthMm)))`, for every
non-empty entry list and configuration with positive can volumes. -/
theorem C1_dual_mode_sides (entries : List Entry) (cfg : Config)
    (_hne : entries ≠ []) (_hev : 0 < cfg.ext_can_vol_ml) (_hiv : 0 < cfg.int_can_vol_ml) :
    (calculate_core entries cfg).total_ext_length
        = (calculate_core entries cfg).total_project_perimeter
            * (1 + cfg.waste_factor_percent / 100)
      ∧ (calculate_core entries cfg).total_int_length
        = (calculate_core entries cfg).total_project_perimeter
            * (1 + cfg.waste_factor_percent / 100)
      ∧ (0 < cfg.ext_width_mm * cfg.ext_depth_mm →
          (calculate_core entries cfg).ext_cans
            = ⌈(calculate_core entries cfg).total_ext_length
                / (cfg.ext_can_vol_ml / (cfg.ext_width_mm * cfg.ext_depth_mm))⌉)
      ∧ (0 < cfg.int_width_mm * cfg.int_depth_mm →
          (calculate_core entries cfg).int_cans
            = ⌈(calculate_core entries cfg).total_int_length
                / (cfg.int_can_vol_ml / (cfg.int_width_mm * cfg.int_depth_mm))⌉) := by
  refine ⟨rfl, rfl, fun hext => ?_, fun hint => ?_⟩
  · simp only [calculate_core, if_pos hext]
  · simp only [calculate_core, if_pos hint]

/-- Witness for C1 at one window and the scenario-D configuration. -/
theorem C1_witness :
    ((calculate_core [⟨1, 1, 1⟩] ⟨10, 10, 100, 5, 5, 50, 20, 50⟩).total_ext_length
        = (calculate_core [⟨1, 1, 1⟩] ⟨10, 10, 100, 5, 5, 50, 20, 50⟩).total_project_perimeter
            * (1 + (50 : ℚ) / 100))
      ∧ (calculate_core [⟨1, 1, 1⟩] ⟨10, 10, 100, 5, 5, 50, 20, 50⟩).ext_cans
        = ⌈(calculate_core [⟨1, 1, 1⟩] ⟨10, 10, 100, 5, 5, 50, 20, 50⟩).total_ext_length
            / ((100 : ℚ) / (10 * 10))⌉ := by
  have h := C1_dual_mode_sides [⟨1, 1, 1⟩] ⟨10, 10, 100, 5, 5, 50, 20, 50⟩
    (by simp) (by norm_num) (by norm_num)
  exact ⟨h.1, h.2.2.1 (by norm_num)⟩

/-- C4: screws are `ceil(rawPerimeter / (spacingCm/100))` when the spacing
is positive, `0` otherwise, and the screw count is unchanged by the waste
factor. -/
theorem C4_screws (entries : List Entry) (cfg : Config) (w1 w2 : ℚ) :
    (0 < cfg.screw_spacing_cm →
        (calculate_core entries cfg).total_screws
          = ⌈(calculate_core entries cfg).total_project_perimeter
              / (cfg.screw_spacing_cm / 100)⌉)
      ∧ (cfg.screw_spacing_cm ≤ 0 → (calculate_core entries cfg).total_screws = 0)
      ∧ (calculate_core entries { cfg with waste_factor_percent := w1 }).total_screws
        = (calculate_core entries { cfg with waste_factor_percent := w2 }).total_screws := by
  refine ⟨fun hpos => ?_, fun hnp => ?_, ?_⟩
  · simp only [calculate_core, if_pos hpos]
  · simp only [calculate_core, if_neg (not_lt.mpr hnp)]
  · simp only [calculate_core]

/-- Witness for C4: positive spacing branch and waste-independence at a
concrete input. -/
theorem C4_witness :
    ((calculate_core [⟨1, 1, 1⟩] ⟨10, 10, 100, 5, 5, 50, 40, 0⟩).total_screws
        = ⌈(calculate_core [⟨1, 1, 1⟩] ⟨10, 10, 100, 5, 5, 50, 40, 0⟩).total_project_perimeter
            / ((40 : ℚ) / 100)⌉)
      ∧ (calculate_core [⟨1, 1, 1⟩]
            { (⟨10, 10, 100, 5, 5, 50, 40, 0⟩ : Config) with waste_factor_percent := (0 : ℚ) }).total_screws
        = (calculate_core [⟨1, 1, 1⟩]
            { (⟨10, 10, 100, 5, 5, 50, 40, 0⟩ : Config) with waste_factor_percent := (50 : ℚ) }).total_screws := by
  have h := C4_screws [⟨1, 1, 1⟩] ⟨10, 10, 100, 5, 5, 50, 40, 0⟩ 0 50
  exact ⟨h.1 (by norm_num), h.2.2⟩

/-- C5: a side with zero joint width or depth gets `cansNeeded = 0`, its
length-with-waste is still computed and equals the length under any other
joint geometry, and no error is raised (the call still returns `ok` on any
table that coerces). -/
theorem C5_zero_geometry (entries : List Entry) (cfg : Config) (a b : ℚ) :
    ((cfg.ext_width_mm = 0 ∨ cfg.ext_depth_mm = 0) →
        (calculate_core entries cfg).ext_cans = 0
          ∧ (calculate_core entries cfg).total_ext_length
            = (calculate_core entries
                { cfg with ext_width_mm := a, ext_depth_mm := b }).total_ext_length)
      ∧ ((cfg.int_width_mm = 0 ∨ cfg.int_depth_mm = 0) →
          (calculate_core entries cfg).int_cans = 0
            ∧ (calculate_core entries cfg).total_int_length
              = (calculate_core entries
                  { cfg with int_width_mm := a, int_depth_mm := b }).total_int_length)
      ∧ (∀ rs : List RawEntry, coerceAll rs = Except.ok entries →
          calculate_project_materials rs cfg = Except.ok (calculate_core entries cfg)) := by
  refine ⟨fun hext => ⟨?_, ?_⟩, fun hint => ⟨?_, ?_⟩, fun rs hrs => ?_⟩
  · have hz : cfg.ext_width_mm * cfg.ext_depth_mm = 0 := by
      rcases hext with h | h <;> simp [h]
    simp only [calculate_core, hz]
    norm_num
  · simp only [calculate_core]
  · have hz : cfg.int_width_mm * cfg.int_depth_mm = 0 := by
      rcases hint with h | h <;> simp [h]
    simp only [calculate_core, hz]
    norm_num
  · simp only [calculate_core]
  · simp only [calculate_project_materials, hrs, Except.map]

/-- The numeric value of a cell (`0` for a non-numeric cell). -/
def cellVal : Cell → ℚ
  | .num q => q
  | .nonNumeric => 0

/-- A column coerces to its numeric values when every cell is numeric. -/
theorem coerceColumn_ok (f : RawEntry → Cell) (rs : List RawEntry)
    (h : ∀ r ∈ rs, f r ≠ Cell.nonNumeric) :
    coerceColumn f rs = Except.ok (rs.map fun r => cellVal (f r)) := by
  induction rs with
  | nil => rfl
  | cons r rs ih =>
    have hr : f r ≠ Cell.nonNumeric := h r (List.mem_cons_self r rs)
    have htail := ih fun x hx => h x (List.mem_cons_of_mem r hx)
    cases hc : f r with
    | num q => simp [coerceColumn, to_numeric, hc, htail, cellVal]
    | nonNumeric => exact absurd hc hr

/-- A column with a non-numeric cell fails to coerce. -/
theorem coerceColumn_error (f : RawEntry → Cell) (rs : List RawEntry)
    (h : ∃ r ∈ rs, f r = Cell.nonNumeric) :
    ∃ e, coerceColumn f rs = Except.error e := by
  induction rs with
  | nil => simp at h
  | cons r rs ih =>
    cases hc : f r with
    | nonNumeric =>
      refine ⟨"Unable to parse string", ?_⟩
      simp only [coerceColumn, to_numeric, hc]
    | num q =>
      obtain ⟨x, hx, hfx⟩ := h
      rcases List.mem_cons.mp hx with hx | hx
      · rw [hx] at hfx; rw [hfx] at hc; exact absurd hc (by simp)
      · obtain ⟨e, he⟩ := ih ⟨x, hx, hfx⟩
        exact ⟨e, by simp only [coerceColumn, to_numeric, hc, he]⟩

/-- C2 counterexample: the function does not fail on an empty table, nor on
a non-positive width — it returns an ordinary result in both cases. -/
theorem C2_counterexample :
    calculate_project_materials [] ⟨10, 10, 100, 5, 5, 50, 40, 0⟩
        = Except.ok (calculate_core [] ⟨10, 10, 100, 5, 5, 50, 40, 0⟩)
      ∧ calculate_project_materials [numEntry (-1) 1 1] ⟨10, 10, 100, 5, 5, 50, 40, 0⟩
        = Except.ok (calculate_core [⟨-1, 1, 1⟩] ⟨10, 10, 100, 5, 5, 50, 40, 0⟩) :=
  ⟨rfl, rfl⟩

/-- C2 (amended): the function fails, producing no result values at all,
whenever some entry has a non-numeric value — the numeric coercion runs
before any aggregate is computed — while an all-numeric table (empty ones
and non-positive dimensions included) always produces a full result. -/
theorem C2_coercion_validation (rs : List RawEntry) (cfg : Config) :
    ((∃ r ∈ rs, r.width = Cell.nonNumeric ∨ r.height = Cell.nonNumeric
          ∨ r.quantity = Cell.nonNumeric) →
        ∃ e, calculate_project_materials rs cfg = Except.error e)
      ∧ ((∀ r ∈ rs, r.width ≠ Cell.nonNumeric ∧ r.height ≠ Cell.nonNumeric
            ∧ r.quantity ≠ Cell.nonNumeric) →
          ∃ res, calculate_project_materials rs cfg = Except.ok res) := by
  constructor
  · intro h
    by_cases hw : ∃ r ∈ rs, r.width = Cell.nonNumeric
    · obtain ⟨e, he⟩ := coerceColumn_error RawEntry.width rs hw
      refine ⟨e, ?_⟩
      simp only [calculate_project_materials, coerceAll, he]
      rfl
    · push_neg at hw
      have hwo := coerceColumn_ok RawEntry.width rs hw
      by_cases hh : ∃ r ∈ rs, r.height = Cell.nonNumeric
      · obtain ⟨e, he⟩ := coerceColumn_error RawEntry.height rs hh
        refine ⟨e, ?_⟩
        simp only [calculate_project_materials, coerceAll, hwo, he]
        rfl
      · push_neg at hh
        have hho := coerceColumn_ok RawEntry.height rs hh
        have hq : ∃ r ∈ rs, r.quantity = Cell.nonNumeric := by
          obtain ⟨r, hr, hcase⟩ := h
          rcases hcase with hc | hc | hc
          · exact absurd hc (hw r hr)
          · exact absurd hc (hh r hr)
          · exact ⟨r, hr, hc⟩
        obtain ⟨e, he⟩ := coerceColumn_error RawEntry.quantity rs hq
        refine ⟨e, ?_⟩
        simp only [calculate_project_materials, coerceAll, hwo, hho, he]
        rfl
  · intro h
    have hwo := coerceColumn_ok RawEntry.width rs fun r hr => (h r hr).1
    have hho := coerceColumn_ok RawEntry.height rs fun r hr => (h r hr).2.1
    have hqo := coerceColumn_ok RawEntry.quantity rs fun r hr => (h r hr).2.2
    refine ⟨calculate_core
      (mkEntries (rs.map fun r => cellVal r.width) (rs.map fun r => cellVal r.height)
        (rs.map fun r => cellVal r.quantity)) cfg, ?_⟩
    simp only [calculate_project_materials, coerceAll, hwo, hho, hqo]
    rfl

/-- Witness for C2 (amended): a table with a non-numeric width fails, and
the empty table succeeds. -/
theorem C2_witness :
    (∃ e, calculate_project_materials
        [⟨Cell.nonNumeric, Cell.num 1, Cell.num 1⟩] ⟨10, 10, 100, 5, 5, 50, 40, 0⟩
        = Except.error e)
      ∧ ∃ res, calculate_project_materials ([] : List RawEntry)
          ⟨10, 10, 100, 5, 5, 50, 40, 0⟩ = Except.ok res :=
  ⟨(C2_coercion_validation [⟨Cell.nonNumeric, Cell.num 1, Cell.num 1⟩]
      ⟨10, 10, 100, 5, 5, 50, 40, 0⟩).1
      ⟨⟨Cell.nonNumeric, Cell.num 1, Cell.num 1⟩, by simp, Or.inl rfl⟩,
    (C2_coercion_validation ([] : List RawEntry) ⟨10, 10, 100, 5, 5, 50, 40, 0⟩).2
      (by simp)⟩

/-- Witness for C5 at a zero exterior joint width. -/
theorem C5_witness :
    (calculate_core [⟨1, 1, 1⟩] ⟨0, 10, 100, 5, 5, 50, 40, 0⟩).ext_cans = 0
      ∧ (calculate_core [⟨1, 1, 1⟩] ⟨0, 10, 100, 5, 5, 50, 40, 0⟩).total_ext_length
        = (calculate_core [⟨1, 1, 1⟩]
            { (⟨0, 10, 100, 5, 5, 50, 40, 0⟩ : Config) with
                ext_width_mm := (10 : ℚ), ext_depth_mm := (10 : ℚ) }).total_ext_length :=
  (C5_zero_geometry [⟨1, 1, 1⟩] ⟨0, 10, 100, 5, 5, 50, 40, 0⟩ 10 10).1 (Or.inl rfl)

/-- Field equation: the exterior length. -/
theorem ext_length_def (entries : List Entry) (cfg : Config) :
    (calculate_core entries cfg).total_ext_length
      = (calculate_core entries cfg).total_project_perimeter
          * (1 + cfg.waste_factor_percent / 100) := rfl

/-- Field equation: the interior length. -/
theorem int_length_def (entries : List Entry) (cfg : Config) :
    (calculate_core entries cfg).total_int_length
      = (calculate_core entries cfg).total_project_perimeter
          * (1 + cfg.waste_factor_percent / 100) := rfl

/-- Field equation: the rubber length. -/
theorem rubber_def (entries : List Entry) (cfg : Config) :
    (calculate_core entries cfg).total_rubber_length
      = (calculate_core entries cfg).total_project_perimeter * 3
          * (1 + cfg.waste_factor_percent / 100) := rfl

/-- Field equation: the exterior can count. -/
theorem ext_cans_def (entries : List Entry) (cfg : Config) :
    (calculate_core entries cfg).ext_cans
      = if 0 < cfg.ext_width_mm * cfg.ext_depth_mm then
          ⌈(calculate_core entries cfg).total_ext_length
            / (cfg.ext_can_vol_ml / (cfg.ext_width_mm * cfg.ext_depth_mm))⌉
        else 0 := rfl

/-- Field equation: the interior can count. -/
theorem int_cans_def (entries : List Entry) (cfg : Config) :
    (calculate_core entries cfg).int_cans
      = if 0 < cfg.int_width_mm * cfg.int_depth_mm then
          ⌈(calculate_core entries cfg).total_int_length
            / (cfg.int_can_vol_ml / (cfg.int_width_mm * cfg.int_depth_mm))⌉
        else 0 := rfl

/-- Field equation: the screw count. -/
theorem screws_def (entries : List Entry) (cfg : Config) :
    (calculate_core entries cfg).total_screws
      = if 0 < cfg.screw_spacing_cm then
          ⌈(calculate_core entries cfg).total_project_perimeter
            / (cfg.screw_spacing_cm / 100)⌉
        else 0 := rfl

/-- Entry lists whose fields are all nonnegative yield a nonnegative total
perimeter. -/
theorem perimeter_nonneg (entries : List Entry) (cfg : Config)
    (h : ∀ e ∈ entries, 0 ≤ e.width ∧ 0 ≤ e.height ∧ 0 ≤ e.quantity) :
    0 ≤ (calculate_core entries cfg).total_project_perimeter := by
  rw [total_perimeter_def]
  apply List.sum_nonneg
  intro x hx
  simp only [List.mem_map] at hx
  obtain ⟨e, he, rfl⟩ := hx
  obtain ⟨hw, hh, hq⟩ := h e he
  have : (0 : ℚ) ≤ (e.width + e.height) * 2 := by linarith
  exact mul_nonneg this hq

/-- Ceiling of a quotient is monotone in the numerator when the denominator
is nonnegative (a zero denominator gives `0/0 = 0` on both sides). -/
theorem ceil_div_mono {x y c : ℚ} (hxy : x ≤ y) (hc : 0 ≤ c) :
    ⌈x / c⌉ ≤ ⌈y / c⌉ := by
  rcases hc.eq_or_lt with h | h
  · rw [← h, div_zero, div_zero]
  · exact Int.ceil_mono ((div_le_div_iff_of_pos_right h).mpr hxy)

/-- C6: raising the waste factor, all else equal, never decreases any
length output (exterior, interior, rubber) or any count output (exterior
cans, interior cans, screws), for entries and configuration within the
data-model invariants (nonnegative dimensions, quantities and can
volumes). -/
theorem C6_waste_monotone (entries : List Entry) (cfg : Config) (w1 w2 : ℚ)
    (hw : w1 ≤ w2)
    (hent : ∀ e ∈ entries, 0 ≤ e.width ∧ 0 ≤ e.height ∧ 0 ≤ e.quantity)
    (hev : 0 ≤ cfg.ext_can_vol_ml) (hiv : 0 ≤ cfg.int_can_vol_ml) :
    (calculate_core entries { cfg with waste_factor_percent := w1 }).total_ext_length
        ≤ (calculate_core entries { cfg with waste_factor_percent := w2 }).total_ext_length
      ∧ (calculate_core entries { cfg with waste_factor_percent := w1 }).total_int_length
        ≤ (calculate_core entries { cfg with waste_factor_percent := w2 }).total_int_length
      ∧ (calculate_core entries { cfg with waste_factor_percent := w1 }).total_rubber_length
        ≤ (calculate_core entries { cfg with waste_factor_percent := w2 }).total_rubber_length
      ∧ (calculate_core entries { cfg with waste_factor_percent := w1 }).ext_cans
        ≤ (calculate_core entries { cfg with waste_factor_percent := w2 }).ext_cans
      ∧ (calculate_core entries { cfg with waste_factor_percent := w1 }).int_cans
        ≤ (calculate_core entries { cfg with waste_factor_percent := w2 }).int_cans
      ∧ (calculate_core entries { cfg with waste_factor_percent := w1 }).total_screws
        ≤ (calculate_core entries { cfg with waste_factor_percent := w2 }).total_screws := by
  have hP1 := perimeter_nonneg entries { cfg with waste_factor_percent := w1 } hent
  have hPeq := total_perimeter_config_free entries
    { cfg with waste_factor_percent := w1 } { cfg with waste_factor_percent := w2 }
  have hmul : (1 : ℚ) + w1 / 100 ≤ 1 + w2 / 100 := by linarith
  have hlen :
      (calculate_core entries { cfg with waste_factor_percent := w1 }).total_ext_length
        ≤ (calculate_core entries { cfg with waste_factor_percent := w2 }).total_ext_length := by
    rw [ext_length_def, ext_length_def, ← hPeq]
    exact mul_le_mul_of_nonneg_left hmul hP1
  have hlen2 :
      (calculate_core entries { cfg with waste_factor_percent := w1 }).total_int_length
        ≤ (calculate_core entries { cfg with waste_factor_percent := w2 }).total_int_length := by
    rw [int_length_def, int_length_def, ← hPeq]
    exact mul_le_mul_of_nonneg_left hmul hP1
  refine ⟨hlen, hlen2, ?_, ?_, ?_, ?_⟩
  · rw [rubber_def, rubber_def, ← hPeq]
    have h3 : (0 : ℚ) ≤ (calculate_core entries
        { cfg with waste_factor_percent := w1 }).total_project_perimeter * 3 := by
      linarith
    exact mul_le_mul_of_nonneg_left hmul h3
  · rw [ext_cans_def, ext_cans_def]
    by_cases harea : 0 < cfg.ext_width_mm * cfg.ext_depth_mm
    · simp only [harea, if_pos]
      exact ceil_div_mono hlen (div_nonneg hev harea.le)
    · simp [harea]
  · rw [int_cans_def, int_cans_def]
    by_cases harea : 0 < cfg.int_width_mm * cfg.int_depth_mm
    · simp only [harea, if_pos]
      exact ceil_div_mono hlen2 (div_nonneg hiv harea.le)
    · simp [harea]
  · rw [screws_def, screws_def, ← hPeq]

/-- Witness for C6: one window, waste raised from 0 % to 50 %. -/
theorem C6_witness :
    (calculate_core [⟨1, 1, 1⟩]
        { (⟨10, 10, 100, 5, 5, 50, 40, 0⟩ : Config) with
            waste_factor_percent := (0 : ℚ) }).total_ext_length
      ≤ (calculate_core [⟨1, 1, 1⟩]
          { (⟨10, 10, 100, 5, 5, 50, 40, 0⟩ : Config) with
              waste_factor_percent := (50 : ℚ) }).total_ext_length :=
  (C6_waste_monotone [⟨1, 1, 1⟩] ⟨10, 10, 100, 5, 5, 50, 40, 0⟩ 0 50 (by norm_num)
      (by intro e he; simp at he; subst he; norm_num)
      (by norm_num) (by norm_num)).1

/-- Modelled from the spec: the single-material estimation mode (spec §4.1
step 4) is absent from `src/silicon_calculator.py` — the source implements
only the dual-material mode — so it is modelled from the spec's words:
`rawLength = totalPerimeterMeters * 2`, `lengthWithWaste = rawLength *
wasteMultiplier`, `cansNeeded = ceil(lengthWithWaste / metersPerCan)`. -/
def single_material_estimate (entries : List Entry) (metersPerCan waste_factor_percent : ℚ) :
    ℚ × ℚ × ℤ :=
  let totalPerimeterMeters := (entries.map fun e => 2 * (e.width + e.height) * e.quantity).sum
  let rawLength := totalPerimeterMeters * 2
  let lengthWithWaste := rawLength * (1 + waste_factor_percent / 100)
  (totalPerimeterMeters, lengthWithWaste, ⌈lengthWithWaste / metersPerCan⌉)

/-- C8: in single-material mode the length is `perimeter * 2` adjusted by
waste and the can count is `ceil(length / metersPerCan)`; in particular one
1×1 window with 10 m/can and no waste gives perimeter 4 m, length 8 m and
1 can. -/
theorem C8_single_material_mode (entries : List Entry) (mpc w : ℚ) :
    (single_material_estimate entries mpc w).1
        = (entries.map fun e => 2 * (e.width + e.height) * e.quantity).sum
      ∧ (single_material_estimate entries mpc w).2.1
        = ((single_material_estimate entries mpc w).1 * 2) * (1 + w / 100)
      ∧ (single_material_estimate entries mpc w).2.2
        = ⌈(single_material_estimate entries mpc w).2.1 / mpc⌉
      ∧ single_material_estimate [⟨1, 1, 1⟩] 10 0 = (4, 8, 1) := by
  refine ⟨rfl, rfl, rfl, ?_⟩
  simp only [single_material_estimate, List.map_cons, List.map_nil, List.sum_cons,
    List.sum_nil, Prod.mk.injEq]
  norm_num
  rw [ceil_rat_eq (z := 1)] <;> norm_num

end SiliconCalc
